import Mathlib

/-!
Shallow embedding of the e-commerce FastAPI backend (src/app/models.py,
src/app/crud.py, src/app/main.py) for verifying the specification claims.

Modelling conventions:
* Each SQLAlchemy model becomes a Lean structure; the database session is an
  explicit `Db` record of row lists (in insertion order, so `List.find?`
  mirrors `.first()` on a query).
* SQL `Float` columns are modelled as `Rat` (exact arithmetic), integer
  columns as `Nat` (primary keys, foreign keys) or `Int` (quantities, which
  Python allows to be negative), nullable columns as `Option`.
* Autoincrement identifiers come from a single `nextId` counter bumped on
  each insert.
* Python truthiness tests (`if update.name:`, `if seller_id and ...`) are
  modelled exactly: `None` and the empty string and the integer 0 are falsy.
* `db.commit()` boundaries matter for the atomicity claims: fallible
  operations return the state as committed at the moment of failure, so a
  mid-operation commit that survives a later failure is visible.
-/

namespace ECommerce

/-- models.User (fields used by the claims). -/
structure User where
  id : Nat
  name : String
  email : String
  password : String
  phone : Option String
  role : String
  isActive : Bool
deriving Repr, DecidableEq

/-- models.Address. -/
structure Address where
  id : Nat
  userId : Nat
  street : String
  city : String
  state : String
  country : String
  postalCode : String
deriving Repr, DecidableEq

/-- models.Product (price is SQL Float, modelled as `Rat`; `seller_id` and
`category_id` are nullable foreign keys). -/
structure Product where
  id : Nat
  name : String
  description : Option String
  price : Rat
  stock : Int
  categoryId : Option Nat
  sellerId : Option Nat
deriving Repr, DecidableEq

/-- models.Cart. -/
structure Cart where
  id : Nat
  userId : Nat
deriving Repr, DecidableEq

/-- models.CartItem. -/
structure CartItem where
  id : Nat
  cartId : Nat
  productId : Nat
  quantity : Int
deriving Repr, DecidableEq

/-- models.Order (status defaults to "pending"). -/
structure Order where
  id : Nat
  userId : Nat
  addressId : Nat
  total_amount : Rat
  status : String
deriving Repr, DecidableEq

/-- models.OrderItem (price is the snapshot copied from the product). -/
structure OrderItem where
  id : Nat
  orderId : Nat
  productId : Nat
  quantity : Int
  price : Rat
deriving Repr, DecidableEq

/-- models.Wishlist. -/
structure Wishlist where
  id : Nat
  userId : Nat
  productId : Nat
deriving Repr, DecidableEq

/-- The relational store: one list per table, rows in insertion order,
plus the autoincrement counter. -/
structure Db where
  users : List User
  addresses : List Address
  products : List Product
  carts : List Cart
  cartItems : List CartItem
  orders : List Order
  orderItems : List OrderItem
  wishlists : List Wishlist
  nextId : Nat
deriving Repr, DecidableEq

/-- schemas.UserUpdate: all fields optional. -/
structure UserUpdate where
  name : Option String
  phone : Option String
  password : Option String
  role : Option String
deriving Repr, DecidableEq

/-- schemas.AddressUpdate: all fields optional (`exclude_unset` partial
update). -/
structure AddressUpdate where
  street : Option String
  city : Option String
  state : Option String
  country : Option String
  postalCode : Option String
deriving Repr, DecidableEq

/-- schemas.ProductBase used with `exclude_unset=True`: only the provided
fields overwrite the row. -/
structure ProductUpdate where
  name : Option String
  description : Option String
  price : Option Rat
  stock : Option Int
  categoryId : Option Nat
  sellerId : Option Nat
deriving Repr, DecidableEq

/-- schemas.CartItemBase. -/
structure CartItemBase where
  productId : Nat
  quantity : Int
deriving Repr, DecidableEq

/-- Python truthiness of an optional string: `None` and `""` are falsy. -/
def truthyStr : Option String → Bool
  | none => false
  | some s => !(s == "")

/-- Python truthiness of a nullable integer: `None` and `0` are falsy. -/
def truthyNat : Option Nat → Bool
  | none => false
  | some n => !(n == 0)

/-- Generic HTTP-level outcome of an endpoint: a serialized value, an
`HTTPException(status, detail)`, or an uncaught exception (HTTP 500). -/
inductive Resp (α : Type) where
  | ok (val : α)
  | err (status : Nat) (detail : String)
  | serverError
deriving Repr, DecidableEq

/-- Does `small` occur at the head of the character list? -/
def leadsWith : List Char → List Char → Bool
  | [], _ => true
  | _ :: _, [] => false
  | c :: cs, d :: ds => c == d && leadsWith cs ds

/-- Does the needle occur somewhere inside the haystack? -/
def occursIn (needle : List Char) : List Char → Bool
  | [] => leadsWith needle []
  | d :: ds => leadsWith needle (d :: ds) || occursIn needle ds

/-- Python `needle in hay` on strings. -/
def containsSub (hay needle : String) : Bool :=
  occursIn needle.data hay.data

/-- Python `str.lower()` (ASCII suffices for the fixed messages). -/
def strLower (s : String) : String :=
  ⟨s.data.map Char.toLower⟩

/-- Modelled from the spec: password hashing is an external collaborator
(passlib bcrypt, crud.hash_password); only that it maps a plaintext to some
digest string matters here. -/
def hash_password (password : String) : String :=
  String.append "bcrypt$" password

/-- crud.update_user: each field is overwritten only when the update carries
a Python-truthy value; no validation, no role check. -/
def update_user (user : User) (update : UserUpdate) : User :=
  let user := if truthyStr update.name then
    { user with name := update.name.getD user.name } else user
  let user := if truthyStr update.phone then
    { user with phone := update.phone } else user
  let user := if truthyStr update.password then
    { user with password := hash_password (update.password.getD "") } else user
  if truthyStr update.role then
    { user with role := update.role.getD user.role } else user

/-- crud.get_user. -/
def get_user (db : Db) (user_id : Nat) : Option User :=
  db.users.find? (fun u => u.id == user_id)

/-- main.update_user, the `PUT /users/` endpoint: looks up the
authenticated user and applies `crud.update_user` with no admin gate. -/
def update_user_endpoint (db : Db) (actorId : Nat) (update : UserUpdate) :
    Resp User × Db :=
  match get_user db actorId with
  | none => (.err 404 "User not found", db)
  | some u =>
      let u2 := update_user u update
      (.ok u2,
       { db with users := db.users.map (fun x => if x.id == u.id then u2 else x) })

/-- crud.get_address: NOTE the source filters on `Address.id == user_id`
(primary key compared against the caller id). -/
def get_address (db : Db) (user_id : Nat) : Option Address :=
  db.addresses.find? (fun a => a.id == user_id)

/-- `exclude_unset` partial update of an address row. -/
def applyAddressUpdate (a : Address) (u : AddressUpdate) : Address :=
  { a with
    street := u.street.getD a.street
    city := u.city.getD a.city
    state := u.state.getD a.state
    country := u.country.getD a.country
    postalCode := u.postalCode.getD a.postalCode }

/-- crud.update_address. -/
def crud_update_address (db : Db) (db_address : Address) (update : AddressUpdate) :
    Address × Db :=
  let a2 := applyAddressUpdate db_address update
  (a2,
   { db with addresses :=
      db.addresses.map (fun x => if x.id == db_address.id then a2 else x) })

/-- main.update_address, the `PUT /addresses/update` endpoint. -/
def update_address_endpoint (db : Db) (actorId : Nat) (update : AddressUpdate) :
    Resp Address × Db :=
  match get_address db actorId with
  | none => (.err 404 "Address not found", db)
  | some a =>
      let (a2, db2) := crud_update_address db a update
      (.ok a2, db2)

/-- `exclude_unset` partial update of a product row. -/
def applyProductUpdate (p : Product) (u : ProductUpdate) : Product :=
  { p with
    name := u.name.getD p.name
    description := if u.description.isSome then u.description else p.description
    price := u.price.getD p.price
    stock := u.stock.getD p.stock
    categoryId := if u.categoryId.isSome then u.categoryId else p.categoryId
    sellerId := if u.sellerId.isSome then u.sellerId else p.sellerId }

/-- crud.update_product: missing product or (truthy seller_id whose value
differs from the product owner) yield `None` and leave the store unchanged. -/
def update_product (db : Db) (product_id : Nat) (update : ProductUpdate)
    (seller_id : Option Nat) : Option Product × Db :=
  match db.products.find? (fun p => p.id == product_id) with
  | none => (none, db)
  | some product =>
      if truthyNat seller_id && !(product.sellerId == seller_id) then
        (none, db)
      else
        let p2 := applyProductUpdate product update
        (some p2,
         { db with products :=
            db.products.map (fun q => if q.id == product_id then p2 else q) })

/-- crud.delete_product: admin deletes anything, a seller only their own
product; every other combination returns `None` without touching the row. -/
def delete_product (db : Db) (product_id : Nat) (user_id : Option Nat)
    (user_role : Option String) : Option Product × Db :=
  match db.products.find? (fun p => p.id == product_id) with
  | none => (none, db)
  | some product =>
      if user_role == some "admin" ||
         (user_role == some "seller" && product.sellerId == user_id) then
        (some product,
         { db with products := db.products.filter (fun p => !(p.id == product_id)) })
      else
        (none, db)

/-- crud.get_cart. -/
def get_cart (db : Db) (user_id : Nat) : Option Cart :=
  db.carts.find? (fun c => c.userId == user_id)

/-- crud.create_cart. -/
def create_cart (db : Db) (user_id : Nat) : Cart × Db :=
  let cart : Cart := ⟨db.nextId, user_id⟩
  (cart, { db with carts := db.carts ++ [cart], nextId := db.nextId + 1 })

/-- crud.add_cart_item: inserts the row unconditionally — there is no
quantity validation and no existence check on the product. -/
def add_cart_item (db : Db) (cart_id : Nat) (item : CartItemBase) :
    CartItem × Db :=
  let row : CartItem := ⟨db.nextId, cart_id, item.productId, item.quantity⟩
  (row, { db with cartItems := db.cartItems ++ [row], nextId := db.nextId + 1 })

/-- main.add_item_to_cart, the `POST /cart/items` endpoint: fetches or
lazily creates the caller cart, then inserts the line.  The
`except ValueError` arms of the source are unreachable because
`crud.add_cart_item` never raises. -/
def add_item_to_cart_endpoint (db : Db) (actorId : Nat) (item : CartItemBase) :
    Resp CartItem × Db :=
  let (cart, db1) :=
    match get_cart db actorId with
    | some c => (c, db)
    | none => create_cart db actorId
  let (row, db2) := add_cart_item db1 cart.id item
  (.ok row, db2)

/-- crud.update_cart_item: rewrites the quantity of the row (committing it)
whenever the row exists; no ownership information is consulted here. -/
def crud_update_cart_item (db : Db) (cart_item_id : Nat) (quantity : Int) :
    Option CartItem × Db :=
  match db.cartItems.find? (fun i => i.id == cart_item_id) with
  | none => (none, db)
  | some item =>
      let item2 := { item with quantity := quantity }
      (some item2,
       { db with cartItems :=
          db.cartItems.map (fun i => if i.id == cart_item_id then item2 else i) })

/-- main.update_cart_item, the `PUT /cart/items/{id}` endpoint: the source
calls `crud.update_cart_item` (which commits the new quantity) FIRST and
only afterwards checks ownership, so the 403 arm fires on an
already-mutated store.  A dangling `item.cart` would raise
(`AttributeError` → 500). -/
def update_cart_item_endpoint (db : Db) (actor : User) (cart_item_id : Nat)
    (quantity : Int) : Resp CartItem × Db :=
  let (found, db1) := crud_update_cart_item db cart_item_id quantity
  match found with
  | none => (.err 404 "Cart item not found", db1)
  | some item =>
      match db1.carts.find? (fun c => c.id == item.cartId) with
      | none => (.serverError, db1)
      | some cart =>
          if !(cart.userId == actor.id) && !(actor.role == "admin") then
            (.err 403 "Not allowed to modify this item", db1)
          else
            (.ok item, db1)

/-- crud.add_to_wishlist: returns the existing (user, product) row when one
is present, otherwise inserts a fresh row. -/
def add_to_wishlist (db : Db) (user_id : Nat) (product_id : Nat) :
    Wishlist × Db :=
  match db.wishlists.find?
      (fun w => w.userId == user_id && w.productId == product_id) with
  | some exists0 => (exists0, db)
  | none =>
      let item : Wishlist := ⟨db.nextId, user_id, product_id⟩
      (item, { db with wishlists := db.wishlists ++ [item], nextId := db.nextId + 1 })

/-- Iterated wishlist add of the same (user, product) pair. -/
def iterAddWishlist (user_id product_id : Nat) : Nat → Db → Db
  | 0, db => db
  | n + 1, db => iterAddWishlist user_id product_id n (add_to_wishlist db user_id product_id).2

/-- Number of wishlist rows for a (user, product) pair. -/
def wishlistCount (db : Db) (user_id product_id : Nat) : Nat :=
  (db.wishlists.filter (fun w => w.userId == user_id && w.productId == product_id)).length

/-- Exceptions escaping crud.create_order_from_cart_for_user: the three
guard `ValueError`s, and the `AttributeError` raised at
`item.product.price` when a cart line references a product row that no
longer exists (`item.product` is `None`). -/
inductive PlaceErr where
  | valueError (msg : String)
  | attributeError
deriving Repr, DecidableEq

/-- The loop body of crud.create_order_from_cart_for_user: for each cart
line build an OrderItem carrying a snapshot of the product's current price
and accumulate `quantity * price`; fails (AttributeError) when the product
row is missing.  `nid` models the autoincrement ids handed out at commit. -/
def buildOrderItems (db : Db) (order_id : Nat) :
    Nat → List CartItem → Option (List OrderItem × Rat)
  | _, [] => some ([], 0)
  | nid, item :: rest =>
      match db.products.find? (fun p => p.id == item.productId) with
      | none => none
      | some product =>
          match buildOrderItems db order_id (nid + 1) rest with
          | none => none
          | some (items, total) =>
              some (⟨nid, order_id, item.productId, item.quantity, product.price⟩ :: items,
                    (item.quantity : Rat) * product.price + total)

/-- The state after the FIRST commit of crud.create_order_from_cart_for_user:
the order row exists with the placeholder `total_amount = 0` and no
OrderItems have been written yet. -/
def placeOrderFirstCommit (db : Db) (user_id : Nat) (addressId : Nat) : Db :=
  { db with
    orders := db.orders ++ [⟨db.nextId, user_id, addressId, 0, "pending"⟩]
    nextId := db.nextId + 1 }

/-- The state after the SECOND commit of
crud.create_order_from_cart_for_user: the OrderItems are inserted and the
placeholder order row is overwritten with the accumulated total. -/
def placeOrderSecondCommit (db1 : Db) (orderId : Nat) (user_id addressId : Nat)
    (total : Rat) (items : List OrderItem) : Db :=
  { db1 with
    orders := db1.orders.map
      (fun o => if o.id == orderId then ⟨orderId, user_id, addressId, total, "pending"⟩ else o)
    orderItems := db1.orderItems ++ items
    nextId := db1.nextId + items.length }

/-- crud.create_order_from_cart_for_user.  The three guards fail before
anything is written.  The order row with the placeholder total 0 is then
COMMITTED on its own; only afterwards are the OrderItems built and the
total rewritten in a second commit.  On failure the state as committed at
that moment is returned alongside the exception. -/
def create_order_from_cart_for_user (db : Db) (user_id : Nat) :
    Except (PlaceErr × Db) (Db × Order) :=
  match db.carts.find? (fun c => c.userId == user_id) with
  | none => .error (.valueError "Cart not found for this user", db)
  | some cart =>
      match db.addresses.find? (fun a => a.userId == user_id) with
      | none => .error (.valueError "Address not found for this user", db)
      | some address =>
          if (db.cartItems.filter (fun ci => ci.cartId == cart.id)).isEmpty then
            .error (.valueError "Cart is empty", db)
          else
            match buildOrderItems (placeOrderFirstCommit db user_id address.id)
                db.nextId (db.nextId + 1)
                (db.cartItems.filter (fun ci => ci.cartId == cart.id)) with
            | none => .error (.attributeError, placeOrderFirstCommit db user_id address.id)
            | some (items, total) =>
                .ok (placeOrderSecondCommit (placeOrderFirstCommit db user_id address.id)
                       db.nextId user_id address.id total items,
                     ⟨db.nextId, user_id, address.id, total, "pending"⟩)

/-- The status code main.create_order_from_cart assigns to a `ValueError`
message: substring match on the lowercased text, exactly as in the source. -/
def orderErrStatus (msg : String) : Nat :=
  if containsSub (strLower msg) "not found" then 404
  else if containsSub (strLower msg) "empty" then 400
  else 400

/-- main.create_order_from_cart, the `POST /orders/` endpoint: `ValueError`s
become `HTTPException`s via `orderErrStatus`; an `AttributeError` is not
caught. -/
def create_order_endpoint (db : Db) (actorId : Nat) : Resp Order × Db :=
  match create_order_from_cart_for_user db actorId with
  | .ok (db2, order) => (.ok order, db2)
  | .error (.valueError msg, db2) => (.err (orderErrStatus msg) msg, db2)
  | .error (.attributeError, db2) => (.serverError, db2)

/-- The sum `Σ item.price * item.quantity` over a list of order items. -/
def orderItemsTotal (items : List OrderItem) : Rat :=
  (items.map (fun oi => oi.price * (oi.quantity : Rat))).sum

/-- The OrderItem rows of a given order. -/
def itemsOfOrder (db : Db) (order_id : Nat) : List OrderItem :=
  db.orderItems.filter (fun oi => oi.orderId == order_id)

/-- The order-item builder returns exactly the accumulated
`Σ quantity * price`, and every item it builds carries the target order id
and a price copied from the product currently in the catalog. -/
theorem buildOrderItems_spec (db : Db) (order_id : Nat) :
    ∀ (cis : List CartItem) (nid : Nat) (items : List OrderItem) (total : Rat),
      buildOrderItems db order_id nid cis = some (items, total) →
      total = orderItemsTotal items ∧
      ∀ oi ∈ items, oi.orderId = order_id ∧
        ∃ p, db.products.find? (fun x => x.id == oi.productId) = some p ∧
          oi.price = p.price := by
  intro cis
  induction cis with
  | nil =>
      intro nid items total h
      simp only [buildOrderItems, Option.some.injEq, Prod.mk.injEq] at h
      obtain ⟨h1, h2⟩ := h
      subst h1; subst h2
      simp [orderItemsTotal]
  | cons ci rest ih =>
      intro nid items total h
      simp only [buildOrderItems] at h
      cases hfind : db.products.find? (fun p => p.id == ci.productId) with
      | none => rw [hfind] at h; exact absurd h (by simp)
      | some product =>
          rw [hfind] at h
          cases hrec : buildOrderItems db order_id (nid + 1) rest with
          | none => rw [hrec] at h; exact absurd h (by simp)
          | some pr =>
              obtain ⟨items0, total0⟩ := pr
              rw [hrec] at h
              simp only [Option.some.injEq, Prod.mk.injEq] at h
              obtain ⟨hitems, htotal⟩ := h
              obtain ⟨hTot0, hMem0⟩ := ih (nid + 1) items0 total0 hrec
              subst hitems
              constructor
              · subst htotal
                simp only [orderItemsTotal, List.map_cons, List.sum_cons] at hTot0 ⊢
                rw [← hTot0]; ring
              · intro oi hmem
                rcases List.mem_cons.mp hmem with hoi | hoi
                · subst hoi
                  exact ⟨rfl, product, hfind, rfl⟩
                · exact hMem0 oi hoi

/-- C1: For every order returned by place_order, the order's total_amount
equals the sum over its OrderItems of (item.price × item.quantity), where
each item.price is the product's current catalog price at the moment of
placement. -/
theorem order_total_is_sum_of_snapshot_items (db : Db) (user_id : Nat)
    (db2 : Db) (order : Order)
    (hfresh : ∀ oi ∈ db.orderItems, oi.orderId ≠ db.nextId)
    (hok : create_order_from_cart_for_user db user_id = .ok (db2, order)) :
    order.total_amount = orderItemsTotal (itemsOfOrder db2 order.id) ∧
    ∀ oi ∈ itemsOfOrder db2 order.id,
      ∃ p, db.products.find? (fun x => x.id == oi.productId) = some p ∧
        oi.price = p.price := by
  unfold create_order_from_cart_for_user at hok
  split at hok
  · exact absurd hok (by simp)
  · split at hok
    · exact absurd hok (by simp)
    · split at hok
      · exact absurd hok (by simp)
      · split at hok
        · exact absurd hok (by simp)
        · rename_i cart hc address ha hne items total hbuild
          simp only [Except.ok.injEq, Prod.mk.injEq] at hok
          obtain ⟨hdb2, horder⟩ := hok
          obtain ⟨hTot, hMem⟩ := buildOrderItems_spec _ _ _ _ _ _ hbuild
          subst hdb2; subst horder
          have hfilter : (db.orderItems ++ items).filter
              (fun oi => oi.orderId == db.nextId) = items := by
            rw [List.filter_append, List.filter_eq_nil_iff.mpr, List.filter_eq_self.mpr]
            · simp
            · intro oi hoi; simpa using (hMem oi hoi).1
            · intro oi hoi; simpa using hfresh oi hoi
          simp only [itemsOfOrder, placeOrderSecondCommit, placeOrderFirstCommit]
          rw [hfilter]
          refine ⟨hTot, ?_⟩
          intro oi hoi
          have h2 := (hMem oi hoi).2
          simpa only [placeOrderFirstCommit] using h2

/-- Concrete store for the C1 witness: user 1 with a cart holding one line
(product 3, quantity 2) and an address. -/
def dbC1 : Db :=
  { users := [⟨1, "u", "u@example.com", "pw", none, "customer", true⟩]
    addresses := [⟨2, 1, "s", "c", "st", "co", "11111"⟩]
    products := [⟨3, "A", none, 10, 5, none, none⟩]
    carts := [⟨4, 1⟩]
    cartItems := [⟨5, 4, 3, 2⟩]
    orders := []
    orderItems := []
    wishlists := []
    nextId := 6 }

/-- The store produced by placing the order on `dbC1`. -/
def dbC1ok : Db :=
  placeOrderSecondCommit (placeOrderFirstCommit dbC1 1 2) 6 1 2
    (((2 : Int) : Rat) * 10 + 0) [⟨7, 6, 3, 2, 10⟩]

/-- The order returned by placing the order on `dbC1`. -/
def orderC1 : Order := ⟨6, 1, 2, ((2 : Int) : Rat) * 10 + 0, "pending"⟩

/-- Witness for C1: on the concrete store the placed order's total equals
the sum over its committed items. -/
theorem order_total_is_sum_of_snapshot_items_witness :
    orderC1.total_amount = orderItemsTotal (itemsOfOrder dbC1ok orderC1.id) :=
  (order_total_is_sum_of_snapshot_items dbC1 1 dbC1ok orderC1 (by decide) rfl).1

/-- Concrete store for C2: user 1 has a cart, an address, and one cart line
whose product (id 99) is missing from the catalog, so the item-building
loop raises after the first commit. -/
def dbC2 : Db :=
  { users := [⟨1, "u", "u@example.com", "pw", none, "customer", true⟩]
    addresses := [⟨2, 1, "s", "c", "st", "co", "11111"⟩]
    products := []
    carts := [⟨4, 1⟩]
    cartItems := [⟨5, 4, 99, 1⟩]
    orders := []
    orderItems := []
    wishlists := []
    nextId := 6 }

/-- C2 counterexample: on `dbC2` place_order fails (uncaught
AttributeError), yet the committed state differs from the initial one — it
contains an Order row with the placeholder total 0 and no OrderItems.  So a
failure before the final commit does NOT leave the store free of partial
orders. -/
theorem place_order_not_atomic_counterexample :
    create_order_from_cart_for_user dbC2 1 =
      .error (.attributeError, placeOrderFirstCommit dbC2 1 2) ∧
    (placeOrderFirstCommit dbC2 1 2).orders = [⟨6, 1, 2, 0, "pending"⟩] ∧
    (placeOrderFirstCommit dbC2 1 2).orderItems = [] ∧
    (placeOrderFirstCommit dbC2 1 2).orders ≠ dbC2.orders := by
  refine ⟨rfl, rfl, rfl, ?_⟩
  decide

/-- C2 amended: the three validation guards fail before anything is
committed, so there the store is unchanged; but a failure while building
the OrderItems happens after the first commit and leaves exactly the
placeholder Order row (total 0) committed, with no OrderItems written. -/
theorem place_order_failure_commits (db : Db) (user_id : Nat)
    (e : PlaceErr) (db2 : Db)
    (herr : create_order_from_cart_for_user db user_id = .error (e, db2)) :
    db2.orderItems = db.orderItems ∧
    (∀ msg, e = .valueError msg → db2 = db) ∧
    (e = .attributeError →
      ∃ address, db.addresses.find? (fun a => a.userId == user_id) = some address ∧
        db2 = placeOrderFirstCommit db user_id address.id) := by
  unfold create_order_from_cart_for_user at herr
  cases hc : db.carts.find? (fun c => c.userId == user_id) with
  | none =>
      rw [hc] at herr
      simp only [Except.error.injEq, Prod.mk.injEq] at herr
      obtain ⟨he, hdb⟩ := herr
      subst hdb
      refine ⟨rfl, fun _ _ => rfl, fun h => ?_⟩
      rw [h] at he; exact absurd he (by simp)
  | some cart =>
      rw [hc] at herr
      cases ha : db.addresses.find? (fun a => a.userId == user_id) with
      | none =>
          rw [ha] at herr
          simp only [Except.error.injEq, Prod.mk.injEq] at herr
          obtain ⟨he, hdb⟩ := herr
          subst hdb
          refine ⟨rfl, fun _ _ => rfl, fun h => ?_⟩
          rw [h] at he; exact absurd he (by simp)
      | some address =>
          rw [ha] at herr
          dsimp only at herr
          by_cases hemp :
              ((db.cartItems.filter (fun ci => ci.cartId == cart.id)).isEmpty = true)
          · rw [if_pos hemp] at herr
            simp only [Except.error.injEq, Prod.mk.injEq] at herr
            obtain ⟨he, hdb⟩ := herr
            subst hdb
            refine ⟨rfl, fun _ _ => rfl, fun h => ?_⟩
            rw [h] at he; exact absurd he (by simp)
          · rw [if_neg hemp] at herr
            cases hb : buildOrderItems (placeOrderFirstCommit db user_id address.id)
                db.nextId (db.nextId + 1)
                (db.cartItems.filter (fun ci => ci.cartId == cart.id)) with
            | none =>
                rw [hb] at herr
                simp only [Except.error.injEq, Prod.mk.injEq] at herr
                obtain ⟨he, hdb⟩ := herr
                subst hdb
                refine ⟨rfl, fun msg hmsg => ?_, fun _ => ⟨address, rfl, rfl⟩⟩
                rw [hmsg] at he; exact absurd he (by simp)
            | some pr =>
                obtain ⟨items, total⟩ := pr
                rw [hb] at herr
                exact absurd herr (by simp)

/-- Witness for the amended C2 theorem at the concrete store `dbC2`. -/
theorem place_order_failure_commits_witness :
    (placeOrderFirstCommit dbC2 1 2).orderItems = dbC2.orderItems :=
  (place_order_failure_commits dbC2 1 .attributeError
    (placeOrderFirstCommit dbC2 1 2) rfl).1

/-- C3: place_order fails 404 when the user has no cart, 404 when the user
has no address, and 400 when the cart has no line items; in each case the
store is returned unchanged. -/
theorem place_order_guard_failures (db : Db) (user_id : Nat) :
    (db.carts.find? (fun c => c.userId == user_id) = none →
      create_order_endpoint db user_id =
        (.err 404 "Cart not found for this user", db)) ∧
    (∀ cart, db.carts.find? (fun c => c.userId == user_id) = some cart →
      db.addresses.find? (fun a => a.userId == user_id) = none →
      create_order_endpoint db user_id =
        (.err 404 "Address not found for this user", db)) ∧
    (∀ cart address, db.carts.find? (fun c => c.userId == user_id) = some cart →
      db.addresses.find? (fun a => a.userId == user_id) = some address →
      db.cartItems.filter (fun ci => ci.cartId == cart.id) = [] →
      create_order_endpoint db user_id = (.err 400 "Cart is empty", db)) := by
  refine ⟨?_, ?_, ?_⟩
  · intro hc
    simp only [create_order_endpoint, create_order_from_cart_for_user, hc]
    rfl
  · intro cart hc ha
    simp only [create_order_endpoint, create_order_from_cart_for_user, hc, ha]
    rfl
  · intro cart address hc ha hemp
    simp only [create_order_endpoint, create_order_from_cart_for_user, hc, ha, hemp]
    rfl

/-- A store with no carts at all, for the C3 witness. -/
def dbNoCart : Db := ⟨[], [], [], [], [], [], [], [], 1⟩

/-- Witness for C3: with no cart the endpoint answers 404 and leaves the
store unchanged. -/
theorem place_order_guard_failures_witness :
    create_order_endpoint dbNoCart 1 =
      (.err 404 "Cart not found for this user", dbNoCart) :=
  (place_order_guard_failures dbNoCart 1).1 rfl

/-- Concrete store for C4: cart 3 and its line 4 belong to user 1; user 2
is an unrelated customer. -/
def dbC4 : Db :=
  { users := [⟨1, "owner", "o@example.com", "pw", none, "customer", true⟩,
              ⟨2, "other", "t@example.com", "pw", none, "customer", true⟩]
    addresses := []
    products := []
    carts := [⟨3, 1⟩]
    cartItems := [⟨4, 3, 7, 2⟩]
    orders := []
    orderItems := []
    wishlists := []
    nextId := 5 }

/-- The non-owner customer acting in the C4 scenario. -/
def actorC4 : User := ⟨2, "other", "t@example.com", "pw", none, "customer", true⟩

/-- C4: the `PUT /cart/items/{id}` endpoint answers 403 to the non-owner,
yet the quantity has already been committed before the ownership check
ran: the stored cart line changed from quantity 2 to quantity 99 despite
the denial. -/
theorem update_cart_item_mutates_before_auth_check :
    (update_cart_item_endpoint dbC4 actorC4 4 99).1 =
      .err 403 "Not allowed to modify this item" ∧
    dbC4.cartItems = [⟨4, 3, 7, 2⟩] ∧
    (update_cart_item_endpoint dbC4 actorC4 4 99).2.cartItems = [⟨4, 3, 7, 99⟩] :=
  ⟨rfl, rfl, rfl⟩

/-- Concrete store for C5: user 1 has cart 2; the catalog is empty. -/
def dbC5 : Db :=
  { users := [⟨1, "u", "u@example.com", "pw", none, "customer", true⟩]
    addresses := []
    products := []
    carts := [⟨2, 1⟩]
    cartItems := []
    orders := []
    orderItems := []
    wishlists := []
    nextId := 3 }

/-- C5 counterexample: quantity 0 < 1 and no product with id 7 exists, yet
`POST /cart/items` succeeds and creates the CartItem row — the claimed
validation does not exist. -/
theorem add_cart_item_no_validation_counterexample :
    (0 : Int) < 1 ∧
    dbC5.products.find? (fun pr => pr.id == 7) = none ∧
    (add_item_to_cart_endpoint dbC5 1 ⟨7, 0⟩).1 = .ok ⟨3, 2, 7, 0⟩ ∧
    (add_item_to_cart_endpoint dbC5 1 ⟨7, 0⟩).2.cartItems = [⟨3, 2, 7, 0⟩] :=
  ⟨by decide, rfl, rfl, rfl⟩

/-- C5 amended: crud.add_cart_item performs no validation at all — every
call succeeds and appends exactly the requested row, for any quantity
(including quantities below 1) and any product id (existing or not). -/
theorem add_cart_item_always_inserts (db : Db) (cart_id : Nat) (item : CartItemBase) :
    add_cart_item db cart_id item =
      (⟨db.nextId, cart_id, item.productId, item.quantity⟩,
       { db with
         cartItems := db.cartItems ++ [⟨db.nextId, cart_id, item.productId, item.quantity⟩]
         nextId := db.nextId + 1 }) := rfl

/-- C6: the self-service `PUT /users/` endpoint applies whatever (truthy)
role the update carries: no validation, no admin gate.  The stored user
ends with exactly the requested role — including "admin" requested by a
customer. -/
theorem update_user_applies_any_role (db : Db) (actorId : Nat) (u : User)
    (update : UserUpdate) (r : String)
    (hu : db.users.find? (fun x => x.id == actorId) = some u)
    (hr : update.role = some r) (hne : r ≠ "") :
    (update_user_endpoint db actorId update).1 = .ok (update_user u update) ∧
    (update_user u update).role = r ∧
    update_user u update ∈ (update_user_endpoint db actorId update).2.users := by
  refine ⟨?_, ?_, ?_⟩
  · simp only [update_user_endpoint, get_user, hu]
  · simp [update_user, truthyStr, hr, hne]
  · simp only [update_user_endpoint, get_user, hu]
    have hmem := List.mem_of_find?_eq_some hu
    simpa using List.mem_map_of_mem
      (fun x => if x.id == u.id then update_user u update else x) hmem

/-- Store for the C6 witness: a single customer. -/
def dbC6 : Db :=
  { users := [⟨1, "u", "u@example.com", "pw", none, "customer", true⟩]
    addresses := []
    products := []
    carts := []
    cartItems := []
    orders := []
    orderItems := []
    wishlists := []
    nextId := 2 }

/-- The role-escalation update of the C6 witness. -/
def updC6 : UserUpdate := ⟨none, none, none, some "admin"⟩

/-- Witness for C6: the customer's self-service update ends with role
"admin". -/
theorem update_user_applies_any_role_witness :
    (update_user ⟨1, "u", "u@example.com", "pw", none, "customer", true⟩ updC6).role
      = "admin" :=
  (update_user_applies_any_role dbC6 1
    ⟨1, "u", "u@example.com", "pw", none, "customer", true⟩ updC6 "admin"
    rfl rfl (by decide)).2.1

/-- C7: `PUT /addresses/update` resolves its target through
crud.get_address, which filters on `Address.id == user_id`: it answers 404
exactly when no address row has id equal to the actor's id, and when such
a row exists it is updated — even when its `user_id` belongs to a
different user. -/
theorem update_address_targets_address_with_actor_id (db : Db) (actorId : Nat)
    (update : AddressUpdate) :
    (db.addresses.find? (fun a => a.id == actorId) = none →
      update_address_endpoint db actorId update = (.err 404 "Address not found", db)) ∧
    (∀ a, db.addresses.find? (fun a => a.id == actorId) = some a →
      update_address_endpoint db actorId update =
        (.ok (applyAddressUpdate a update),
         { db with addresses := (db.addresses.map
             (fun x => if x.id == a.id then applyAddressUpdate a update else x)) })) ∧
    (∀ a, db.addresses.find? (fun a => a.id == actorId) = some a → a.userId ≠ actorId →
      (update_address_endpoint db actorId update).1 = .ok (applyAddressUpdate a update)) := by
  refine ⟨?_, ?_, ?_⟩
  · intro h
    simp only [update_address_endpoint, get_address, h]
  · intro a h
    simp only [update_address_endpoint, get_address, crud_update_address, h]
  · intro a h _
    simp only [update_address_endpoint, get_address, crud_update_address, h]

/-- Store for the C7 witness: the only address has id 1 but belongs to
user 5; the actor is user 1. -/
def dbC7 : Db :=
  { users := [⟨1, "u", "u@example.com", "pw", none, "customer", true⟩]
    addresses := [⟨1, 5, "s", "c", "st", "co", "11111"⟩]
    products := []
    carts := []
    cartItems := []
    orders := []
    orderItems := []
    wishlists := []
    nextId := 6 }

/-- The update applied in the C7 witness. -/
def updC7 : AddressUpdate := ⟨some "new street", none, none, none, none⟩

/-- Witness for C7: actor 1 successfully updates the address with id 1 even
though that address belongs to user 5. -/
theorem update_address_targets_address_with_actor_id_witness :
    (update_address_endpoint dbC7 1 updC7).1 =
      .ok (applyAddressUpdate ⟨1, 5, "s", "c", "st", "co", "11111"⟩ updC7) :=
  (update_address_targets_address_with_actor_id dbC7 1 updC7).2.2
    ⟨1, 5, "s", "c", "st", "co", "11111"⟩ rfl (by decide)

/-- Concrete store for the C8 scenario: user 1 has a cart with lines
(product A id 1, price 10, qty 2) and (product B id 2, price 5, qty 1). -/
def dbC8 : Db :=
  { users := [⟨1, "u", "u@example.com", "pw", none, "customer", true⟩]
    addresses := [⟨3, 1, "s", "c", "st", "co", "11111"⟩]
    products := [⟨1, "A", none, 10, 5, none, none⟩, ⟨2, "B", none, 5, 5, none, none⟩]
    carts := [⟨4, 1⟩]
    cartItems := [⟨5, 4, 1, 2⟩, ⟨6, 4, 2, 1⟩]
    orders := []
    orderItems := []
    wishlists := []
    nextId := 8 }

/-- The accumulated total of the C8 order, as the code computes it. -/
def totalC8 : Rat := ((2 : Int) : Rat) * 10 + (((1 : Int) : Rat) * 5 + 0)

/-- The store after placing the C8 order. -/
def dbC8ok : Db :=
  placeOrderSecondCommit (placeOrderFirstCommit dbC8 1 3) 8 1 3 totalC8
    [⟨9, 8, 1, 2, 10⟩, ⟨10, 8, 2, 1, 5⟩]

/-- The order placed in the C8 scenario. -/
def orderC8 : Order := ⟨8, 1, 3, totalC8, "pending"⟩

/-- The catalog update that later raises product A's price to 99. -/
def priceTo99 : ProductUpdate := ⟨none, none, some 99, none, none, none⟩

/-- C8: order prices are frozen snapshots — update_product never touches
the orders or order_items tables, and in the concrete scenario the order
placed from [(A, 10, qty 2), (B, 5, qty 1)] totals 25 and its items keep
prices 10 and 5 after A's catalog price is changed to 99. -/
theorem order_prices_frozen_after_product_update :
    (∀ (db : Db) (pid : Nat) (upd : ProductUpdate) (sid : Option Nat),
      (update_product db pid upd sid).2.orders = db.orders ∧
      (update_product db pid upd sid).2.orderItems = db.orderItems) ∧
    (create_order_from_cart_for_user dbC8 1 = .ok (dbC8ok, orderC8) ∧
     orderC8.total_amount = 25 ∧
     (update_product dbC8ok 1 priceTo99 none).2.orders = dbC8ok.orders ∧
     (update_product dbC8ok 1 priceTo99 none).2.orderItems = dbC8ok.orderItems ∧
     itemsOfOrder (update_product dbC8ok 1 priceTo99 none).2 orderC8.id =
       [⟨9, 8, 1, 2, 10⟩, ⟨10, 8, 2, 1, 5⟩]) := by
  constructor
  · intro db pid upd sid
    unfold update_product
    split
    · exact ⟨rfl, rfl⟩
    · split
      · exact ⟨rfl, rfl⟩
      · exact ⟨rfl, rfl⟩
  · refine ⟨rfl, ?_, rfl, rfl, rfl⟩
    show totalC8 = 25
    unfold totalC8
    norm_num

/-- Store for C9: product 1 belongs to seller 5; seller 6 is someone else. -/
def dbC9 : Db :=
  { users := [⟨5, "s", "s@example.com", "pw", none, "seller", true⟩,
              ⟨6, "t", "t@example.com", "pw", none, "seller", true⟩]
    addresses := []
    products := [⟨1, "P", none, 10, 3, none, some 5⟩]
    carts := []
    cartItems := []
    orders := []
    orderItems := []
    wishlists := []
    nextId := 7 }

/-- A product update used in the C9 statements. -/
def updC9 : ProductUpdate := ⟨some "renamed", none, none, none, none, none⟩

/-- C9: seller-scoped product mutation — a seller T ≠ S can neither update
nor delete S's product (both return nothing and leave the store
untouched); a seller's update succeeds only on their own product; an admin
updates or deletes any existing product. -/
theorem seller_scoped_product_mutation (db : Db) (pid : Nat) (upd : ProductUpdate)
    (P : Product) (S T : Nat)
    (hfind : db.products.find? (fun p => p.id == pid) = some P) :
    (P.sellerId = some S → T ≠ S → T ≠ 0 →
      update_product db pid upd (some T) = (none, db) ∧
      delete_product db pid (some T) (some "seller") = (none, db)) ∧
    (∀ p2 db2, T ≠ 0 → update_product db pid upd (some T) = (some p2, db2) →
      P.sellerId = some T) ∧
    (update_product db pid upd none =
      (some (applyProductUpdate P upd),
       { db with products := (db.products.map
           (fun q => if q.id == pid then applyProductUpdate P upd else q)) }) ∧
     ∀ aid, delete_product db pid (some aid) (some "admin") =
       (some P, { db with products := db.products.filter (fun p => !(p.id == pid)) })) := by
  refine ⟨?_, ?_, ?_, ?_⟩
  · intro hS hTS hT0
    have hST : ¬(S = T) := fun h => hTS h.symm
    constructor
    · simp [update_product, hfind, truthyNat, hS, hT0, hST]
    · simp [delete_product, hfind, hS, hST]
  · intro p2 db2 hT0 hupd
    simp only [update_product, hfind] at hupd
    by_cases hcond : (truthyNat (some T) && !(P.sellerId == some T)) = true
    · rw [if_pos hcond] at hupd
      exact absurd hupd (by simp)
    · simp [truthyNat, hT0] at hcond
      exact hcond
  · simp [update_product, hfind, truthyNat]
  · intro aid
    simp [delete_product, hfind]

/-- Witness for C9: seller 6's update of seller 5's product is rejected and
the store is unchanged. -/
theorem seller_scoped_product_mutation_witness :
    update_product dbC9 1 updC9 (some 6) = (none, dbC9) :=
  ((seller_scoped_product_mutation dbC9 1 updC9 ⟨1, "P", none, 10, 3, none, some 5⟩
      5 6 rfl).1 rfl (by decide) (by decide)).1

/-- If the first list holds no match, searching the concatenation searches
the second list. -/
theorem find?_append_of_none {α : Type} (q : α → Bool) (l1 l2 : List α)
    (h : l1.find? q = none) : (l1 ++ l2).find? q = l2.find? q := by
  induction l1 with
  | nil => simp
  | cons a l ih =>
      cases hq : q a with
      | true =>
          rw [List.find?_cons_of_pos _ hq] at h
          exact absurd h (by simp)
      | false =>
          have hq2 : ¬(q a = true) := by simp [hq]
          rw [List.find?_cons_of_neg _ hq2] at h
          rw [List.cons_append, List.find?_cons_of_neg _ hq2]
          exact ih h

/-- When no (user, product) wishlist row exists, add_to_wishlist appends a
fresh row. -/
theorem add_to_wishlist_of_absent (db : Db) (u p : Nat)
    (h : db.wishlists.find? (fun x => x.userId == u && x.productId == p) = none) :
    add_to_wishlist db u p =
      (⟨db.nextId, u, p⟩,
       { db with wishlists := db.wishlists ++ [⟨db.nextId, u, p⟩]
                 nextId := db.nextId + 1 }) := by
  unfold add_to_wishlist
  rw [h]

/-- When a (user, product) wishlist row exists, add_to_wishlist returns the
first such row and leaves the store unchanged. -/
theorem add_to_wishlist_of_present (db : Db) (u p : Nat) (w : Wishlist)
    (h : db.wishlists.find? (fun x => x.userId == u && x.productId == p) = some w) :
    add_to_wishlist db u p = (w, db) := by
  unfold add_to_wishlist
  rw [h]

/-- C10: wishlist add is idempotent.  Re-adding an existing pair returns
the existing row unchanged; starting from a store without the pair, the
first add creates one row, every further add of the same pair returns that
very row (same id) without modifying the store, and after any positive
number of adds exactly one row for the pair exists. -/
theorem wishlist_add_idempotent (db : Db) (u p : Nat) :
    (∀ w, db.wishlists.find? (fun x => x.userId == u && x.productId == p) = some w →
      add_to_wishlist db u p = (w, db)) ∧
    (db.wishlists.find? (fun x => x.userId == u && x.productId == p) = none →
      add_to_wishlist (add_to_wishlist db u p).2 u p =
        ((add_to_wishlist db u p).1, (add_to_wishlist db u p).2) ∧
      (∀ n, iterAddWishlist u p n (add_to_wishlist db u p).2 = (add_to_wishlist db u p).2) ∧
      (∀ n, wishlistCount (iterAddWishlist u p (n + 1) db) u p = 1)) := by
  refine ⟨fun w hw => add_to_wishlist_of_present db u p w hw, fun habs => ?_⟩
  have hadd := add_to_wishlist_of_absent db u p habs
  have hfind2 : ((add_to_wishlist db u p).2).wishlists.find?
      (fun x => x.userId == u && x.productId == p) = some ⟨db.nextId, u, p⟩ := by
    rw [hadd]
    show (db.wishlists ++ [(⟨db.nextId, u, p⟩ : Wishlist)]).find? _ = _
    rw [find?_append_of_none _ _ _ habs]
    simp
  have hsecond : add_to_wishlist (add_to_wishlist db u p).2 u p =
      ((add_to_wishlist db u p).1, (add_to_wishlist db u p).2) := by
    rw [add_to_wishlist_of_present _ u p _ hfind2, hadd]
  have hfix : ∀ n, iterAddWishlist u p n (add_to_wishlist db u p).2 =
      (add_to_wishlist db u p).2 := by
    intro n
    induction n with
    | zero => rfl
    | succ k ih =>
        show iterAddWishlist u p k (add_to_wishlist (add_to_wishlist db u p).2 u p).2 =
          (add_to_wishlist db u p).2
        rw [hsecond]
        exact ih
  refine ⟨hsecond, hfix, fun n => ?_⟩
  show wishlistCount (iterAddWishlist u p n (add_to_wishlist db u p).2) u p = 1
  rw [hfix n, hadd]
  show ((db.wishlists ++ [(⟨db.nextId, u, p⟩ : Wishlist)]).filter
    (fun w => w.userId == u && w.productId == p)).length = 1
  rw [List.filter_append, List.filter_eq_nil_iff.mpr, List.nil_append]
  · simp
  · intro w hw
    have := List.find?_eq_none.mp habs w hw
    simpa using this

/-- Store for the C10 witness: user 1's wishlist is empty. -/
def dbC10 : Db :=
  { users := [⟨1, "u", "u@example.com", "pw", none, "customer", true⟩]
    addresses := []
    products := [⟨7, "A", none, 10, 5, none, none⟩]
    carts := []
    cartItems := []
    orders := []
    orderItems := []
    wishlists := []
    nextId := 8 }

/-- Witness for C10: adding (user 1, product 7) twice yields exactly one
row. -/
theorem wishlist_add_idempotent_witness :
    wishlistCount (iterAddWishlist 1 7 2 dbC10) 1 7 = 1 :=
  ((wishlist_add_idempotent dbC10 1 7).2 rfl).2.2 1

end ECommerce
